import Mathlib

/-!
Verification of the MetaAI client (src/metaai/index.ts).

The four operations `init`, `set_access_token`, `prompt` and `sources` of the
`MetaAI` class are embedded as pure functions over an explicit `Session`
state.  The HTTP transport is an oracle: each operation takes the response of
the exchange(s) it performs as an argument.  JavaScript exceptions
(`TypeError` from indexing `null`/`undefined`, `SyntaxError` from
`JSON.parse`) are modelled with `Except JsErr`; every operation returns the
session state as it stands when the operation returns or throws, so that
state mutation before an exception is observable.

JavaScript builtins used by the source (`String.prototype.match` with the
concrete regexes of `init`, `String.prototype.split`, `String.prototype.includes`,
`JSON.parse`, property access and string coercion) are modelled from their
ECMAScript semantics, specialised to the concrete patterns appearing in the
source.
-/

/-- Modelled from the ECMAScript JSON value space: the result of a successful
`JSON.parse`.  Numbers are kept as their source lexeme, which is enough here
because the program never computes with a parsed number. -/
inductive JSON where
  | null
  | bool (b : Bool)
  | num (lexeme : String)
  | str (s : String)
  | arr (elems : List JSON)
  | obj (fields : List (String × JSON))

/-- A JavaScript runtime value as far as this program observes it: a parsed
JSON value or `undefined` (represented by `none`). -/
abbrev JsVal := Option JSON

/-- The two exception kinds the source can raise: `TypeError` (property
access on `undefined`/`null`, iterating a non-iterable) and `SyntaxError`
(`JSON.parse` on malformed input). -/
inductive JsErr where
  | typeError
  | syntaxError
deriving DecidableEq

/-- Last-wins field lookup, matching the object built by JavaScript
`JSON.parse` where a duplicated key keeps the last occurrence. -/
def lookupField : List (String × JSON) → String → Option JSON
  | [], _ => none
  | (k, v) :: rest, key =>
    match lookupField rest key with
    | some r => some r
    | none => if k = key then some v else none

/-- Modelled from JavaScript property access `v[key]`: throws `TypeError` on
`undefined` and `null`, yields the field of an object (or `undefined` when
absent), and yields `undefined` on any other primitive or array. -/
def getField : JsVal → String → Except JsErr JsVal
  | none, _ => .error .typeError
  | some .null, _ => .error .typeError
  | some (.obj fs), key => .ok (lookupField fs key)
  | some _, _ => .ok none

/-- Join of JavaScript `Array.prototype.toString`: elements separated by
commas. -/
def commaJoin : List String → String
  | [] => ""
  | [s] => s
  | s :: rest => s ++ "," ++ commaJoin rest

/-- Modelled from JavaScript ToString on a JSON value, with a depth fuel for
nested arrays (ample for every value this development evaluates). -/
def jsonToStr : Nat → JSON → String
  | _, .null => "null"
  | _, .bool true => "true"
  | _, .bool false => "false"
  | _, .num lexeme => lexeme
  | _, .str s => s
  | 0, .arr _ => ""
  | fuel + 1, .arr xs =>
      commaJoin (xs.map (fun x =>
        match x with
        | .null => ""
        | y => jsonToStr fuel y))
  | _, .obj _ => "[object Object]"

/-- Modelled from JavaScript string coercion of a value stored into a string
field or interpolated into a template: `undefined` coerces to "undefined". -/
def jsToString : JsVal → String
  | none => "undefined"
  | some j => jsonToStr 1000 j

/-! ### A model of `JSON.parse`

Structural-recursion (fuel) parser for ECMAScript `JSON.parse`.  Strings
support the standard escapes; numbers follow the JSON grammar but are kept as
lexemes; raw control characters inside string literals are rejected, exactly
as `JSON.parse` rejects them.  The fuel only bounds the number of
value/member steps, so it is ample for every input this development touches;
`jparse s = none` models `JSON.parse` throwing `SyntaxError`. -/

/-- Drop JSON insignificant whitespace. -/
def skipWs : List Char → List Char
  | [] => []
  | c :: r => if c = ' ' ∨ c = '\t' ∨ c = '\n' ∨ c = '\r' then skipWs r else c :: r

/-- Decoding of a single-character JSON string escape. -/
def escDecode (e : Char) : Option Char :=
  if e = '"' then some '"'
  else if e = '\\' then some '\\'
  else if e = '/' then some '/'
  else if e = 'b' then some '\x08'
  else if e = 'f' then some '\x0c'
  else if e = 'n' then some '\n'
  else if e = 'r' then some '\x0d'
  else if e = 't' then some '\t'
  else none

/-- Scanner for the body of a JSON string literal; the flag records that the
previous character was a backslash.  The `\uXXXX` escape is not modelled (no
input in this development uses it); every other escape, the closing quote and
the rejection of raw control characters follow the JSON grammar. -/
def strScan : Bool → List Char → Option (List Char × List Char)
  | _, [] => none
  | false, c :: rest =>
    if c = '"' then some ([], rest)
    else if c = '\\' then strScan true rest
    else if c.toNat < 32 then none
    else (strScan false rest).map (fun p => (c :: p.1, p.2))
  | true, e :: r2 =>
    match escDecode e with
    | some d => (strScan false r2).map (fun p => (d :: p.1, p.2))
    | none => none

/-- Parse the body of a JSON string literal (the opening quote already
consumed): returns the decoded characters and the input after the closing
quote.  Unescaped control characters and bad escapes are rejected. -/
def parseStrBody (s : List Char) : Option (List Char × List Char) :=
  strScan false s

/-- Longest prefix of decimal digits. -/
def spanDigits : List Char → List Char × List Char
  | [] => ([], [])
  | c :: r =>
    if c.isDigit then
      match spanDigits r with
      | (a, b) => (c :: a, b)
    else ([], c :: r)

/-- JSON integer part: `0` or a nonzero digit followed by digits. -/
def parseIntPart : List Char → Option (List Char × List Char)
  | [] => none
  | c :: r =>
    if c = '0' then some ([c], r)
    else if c.isDigit then
      match spanDigits r with
      | (a, b) => some (c :: a, b)
    else none

/-- Optional JSON fraction part; a dot must be followed by a digit. -/
def parseFracPart : List Char → Option (List Char × List Char)
  | '.' :: r =>
    match spanDigits r with
    | ([], _) => none
    | (a, b) => some ('.' :: a, b)
  | s => some ([], s)

/-- Optional JSON exponent part. -/
def parseExpPart : List Char → Option (List Char × List Char)
  | e :: r =>
    if e = 'e' ∨ e = 'E' then
      match r with
      | s :: r2 =>
        if s = '+' ∨ s = '-' then
          match spanDigits r2 with
          | ([], _) => none
          | (a, b) => some (e :: s :: a, b)
        else
          match spanDigits (s :: r2) with
          | ([], _) => none
          | (a, b) => some (e :: a, b)
      | [] => none
    else some ([], e :: r)
  | [] => some ([], [])

/-- A JSON number lexeme per the JSON grammar. -/
def parseNumLex (s : List Char) : Option (List Char × List Char) :=
  match s with
  | '-' :: r =>
    match parseIntPart r with
    | none => none
    | some (i, r1) =>
      match parseFracPart r1 with
      | none => none
      | some (f, r2) =>
        match parseExpPart r2 with
        | none => none
        | some (x, r3) => some ('-' :: (i ++ f ++ x), r3)
  | _ =>
    match parseIntPart s with
    | none => none
    | some (i, r1) =>
      match parseFracPart r1 with
      | none => none
      | some (f, r2) =>
        match parseExpPart r2 with
        | none => none
        | some (x, r3) => some (i ++ f ++ x, r3)

/-- Modes of the JSON parsing machine: a value, object members just after
the opening brace, a member key, after a member, array items just after the
opening bracket, after an item. -/
inductive PMode where
  | val
  | mem0
  | memNext (acc : List (String × JSON))
  | memSep (acc : List (String × JSON))
  | item0
  | itemSep (acc : List JSON)

/-- The JSON parsing machine.  Fuel decreases on every recursive step, so the
recursion is structural and kernel-reducible. -/
def pVal : Nat → PMode → List Char → Option (JSON × List Char)
  | 0, _, _ => none
  | fuel + 1, .val, s =>
    match skipWs s with
    | [] => none
    | c :: cs =>
      if c = '"' then (parseStrBody cs).map (fun p => (JSON.str ⟨p.1⟩, p.2))
      else if c = '\x7b' then pVal fuel .mem0 cs
      else if c = '[' then pVal fuel .item0 cs
      else if c = 't' then
        match cs with
        | 'r' :: 'u' :: 'e' :: r => some (.bool true, r)
        | _ => none
      else if c = 'f' then
        match cs with
        | 'a' :: 'l' :: 's' :: 'e' :: r => some (.bool false, r)
        | _ => none
      else if c = 'n' then
        match cs with
        | 'u' :: 'l' :: 'l' :: r => some (.null, r)
        | _ => none
      else
        match parseNumLex (c :: cs) with
        | some (lexeme, r) => some (.num ⟨lexeme⟩, r)
        | none => none
  | fuel + 1, .mem0, s =>
    match skipWs s with
    | [] => none
    | c :: cs =>
      if c = '\x7d' then some (.obj [], cs)
      else pVal fuel (.memNext []) (c :: cs)
  | fuel + 1, .memNext acc, s =>
    match skipWs s with
    | [] => none
    | c :: cs =>
      if c = '"' then
        match parseStrBody cs with
        | none => none
        | some (k, r1) =>
          match skipWs r1 with
          | ':' :: r2 =>
            match pVal fuel .val r2 with
            | some (v, r3) => pVal fuel (.memSep (acc ++ [(⟨k⟩, v)])) r3
            | none => none
          | _ => none
      else none
  | fuel + 1, .memSep acc, s =>
    match skipWs s with
    | ',' :: cs => pVal fuel (.memNext acc) cs
    | '\x7d' :: cs => some (.obj acc, cs)
    | _ => none
  | fuel + 1, .item0, s =>
    match skipWs s with
    | [] => none
    | c :: cs =>
      if c = ']' then some (.arr [], cs)
      else
        match pVal fuel .val (c :: cs) with
        | some (v, r1) => pVal fuel (.itemSep [v]) r1
        | none => none
  | fuel + 1, .itemSep acc, s =>
    match skipWs s with
    | ',' :: cs =>
      match pVal fuel .val cs with
      | some (v, r1) => pVal fuel (.itemSep (acc ++ [v])) r1
      | none => none
    | ']' :: cs => some (.arr acc, cs)
    | _ => none

/-- Fuel bound of `jparse`; ample for every input this development touches
(the machine consumes fuel only per parsed token, never per character). -/
def jparseFuel : Nat := 1000000

/-- Modelled from `JSON.parse`: parse one value and require the rest of the
input to be whitespace; `none` models a thrown `SyntaxError`. -/
def jparse (s : String) : Option JSON :=
  match pVal jparseFuel .val s.data with
  | some (v, rest) => if skipWs rest = [] then some v else none
  | none => none

/-! ### String scanning helpers (JavaScript `match`, `includes`, `split`) -/

/-- Capture of `(.*?)"` in a JavaScript regex: the characters up to the next
quote, failing if a line terminator comes first (`.` does not match one). -/
def takeUntilQuote : List Char → Option (List Char)
  | [] => none
  | c :: rest =>
    if c = '"' then some []
    else if c = '\n' ∨ c = '\r' then none
    else (takeUntilQuote rest).map (c :: ·)

/-- Modelled from `s.match(/<lit>(.*?)"/)[1]`: leftmost position where the
literal pattern matches and a quote follows on the same line; `none` models
`match` returning `null` (so that indexing `[1]` throws). -/
def matchCapture : List Char → List Char → Option (List Char)
  | [], _ => none
  | c :: rest, pat =>
    if pat.isPrefixOf (c :: rest) then
      match takeUntilQuote ((c :: rest).drop pat.length) with
      | some cap => some cap
      | none => matchCapture rest pat
    else matchCapture rest pat

/-- Lazy middle of `/LSD.*?token":"(.*?)"/` after the literal `LSD`: find the
literal `pat` after a gap free of line terminators, then capture to the next
quote; on capture failure the gap extends, still stopping at a line
terminator. -/
def matchAfterGap : List Char → List Char → Option (List Char)
  | [], _ => none
  | c :: rest, pat =>
    if pat.isPrefixOf (c :: rest) then
      match takeUntilQuote ((c :: rest).drop pat.length) with
      | some cap => some cap
      | none => if c = '\n' ∨ c = '\r' then none else matchAfterGap rest pat
    else if c = '\n' ∨ c = '\r' then none
    else matchAfterGap rest pat

/-- Modelled from `s.match(/LSD.*?token":"(.*?)"/)[1]`: leftmost occurrence
of `LSD` from which the rest of the pattern matches. -/
def matchLSD : List Char → Option (List Char)
  | [] => none
  | c :: rest =>
    if ['L', 'S', 'D'].isPrefixOf (c :: rest) then
      match matchAfterGap ((c :: rest).drop 3) ("token\":\"".data) with
      | some cap => some cap
      | none => matchLSD rest
    else matchLSD rest

/-- Modelled from `String.prototype.includes` with a non-empty literal. -/
def containsSub : List Char → List Char → Bool
  | [], pat => pat.isEmpty
  | c :: rest, pat => pat.isPrefixOf (c :: rest) || containsSub rest pat

/-- Modelled from `String.prototype.split('\n')`. -/
def splitNl : List Char → List (List Char)
  | [] => [[]]
  | c :: r =>
    if c = '\n' then [] :: splitNl r
    else
      match splitNl r with
      | h :: t => (c :: h) :: t
      | [] => [[c]]

/-! ### The session state and the transport oracle -/

/-- The mutable fields of the `MetaAI` class (the axios instance is the
transport oracle and carries no observable state of its own). -/
structure Session where
  access_token : String := ""
  cookies : String := ""
  lsd : String := ""
  conversation_id : String := ""
  last_fetch_id : String := ""
deriving DecidableEq

/-- The `MetaAI` constructor: every field empty except the freshly generated
conversation id (the uuid is externalized as a parameter). -/
def newSession (uuid : String) : Session :=
  { conversation_id := uuid }

/-- One HTTP exchange as the operation observes it: a status code and the
response data (`String` where the source treats the body as text, `JSON`
where axios hands it structured data). -/
structure HttpResp (α : Type) where
  status : Nat
  data : α

/-! ### threadingID (src/metaai/index.ts lines 33-51) -/

/-- The digit alphabet of `threadingID`, exactly the source constant. -/
def tidCharacters : String := "1234567890"

/-- Modelled from `characters.charAt(Math.floor(Math.random() * 10))`; the
draw is an index into the ten-character alphabet. -/
def tidDigit (k : Fin 10) : Char := tidCharacters.data.getD k.val ' '

/-- One iteration body of the `threadingID` loop: 19 drawn characters,
reading the random draws at offsets `off, off+1, ..., off+18`. -/
def tidSample (draws : Nat → Fin 10) (off : Nat) : String :=
  ⟨(List.range 19).map (fun i => tidDigit (draws (off + i)))⟩

/-- The rejection test of the loop: `charAt(0) == '9' || charAt(0) == '0'`. -/
def tidRejected (s : String) : Bool :=
  s.data.headD ' ' = '9' ∨ s.data.headD ' ' = '0'

/-- The `while (true)` rejection-sampling loop of `threadingID`, with the
infinite stream of random draws explicit and a fuel bounding the number of
iterations (the source loops forever; `none` models non-termination within
`fuel` trials). -/
def threadingIDAux (draws : Nat → Fin 10) : Nat → Nat → Option String
  | _, 0 => none
  | off, fuel + 1 =>
    if tidRejected (tidSample draws off) then threadingIDAux draws (off + 19) fuel
    else some (tidSample draws off)

/-- `threadingID` starting at the beginning of the draw stream. -/
def threadingID (draws : Nat → Fin 10) (fuel : Nat) : Option String :=
  threadingIDAux draws 0 fuel

/-! ### init (src/metaai/index.ts lines 63-89) -/

/-- Literal scanned by `response.data.match(/abra_csrf":{"value":"(.*?)"/)`. -/
def abraMark : String := "abra_csrf\":\x7b\"value\":\""

/-- Literal scanned by `response.data.match(/_js_datr":{"value":"(.*?)"/)`. -/
def jsDatrMark : String := "_js_datr\":\x7b\"value\":\""

/-- Literal scanned by `response.data.match(/datr":{"value":"(.*?)"/)`. -/
def datrMark : String := "datr\":\x7b\"value\":\""

/-- The `init` operation: on non-200 status returns `false` untouched;
otherwise extracts the four tokens (a failed `match` makes the `[1]` index
throw `TypeError`), sets `cookies` to the four `key=value` pairs joined by
`"; "` and `lsd` to the fourth token, and returns `true`. -/
def init (st : Session) (resp : HttpResp String) : Session × Except JsErr Bool :=
  if resp.status ≠ 200 then (st, .ok false)
  else
    match matchCapture resp.data.data abraMark.data,
          matchCapture resp.data.data jsDatrMark.data,
          matchCapture resp.data.data datrMark.data,
          matchLSD resp.data.data with
    | some abra_csrf, some _js_datr, some datr, some lsd =>
      ({ st with
          cookies := "_js_datr=" ++ (⟨_js_datr⟩ : String) ++ "; abra_csrf=" ++ (⟨abra_csrf⟩ : String)
            ++ "; datr=" ++ (⟨datr⟩ : String) ++ "; lsd=" ++ (⟨lsd⟩ : String),
          lsd := ⟨lsd⟩ },
        .ok true)
    | _, _, _, _ => (st, .error .typeError)

/-! ### set_access_token (src/metaai/index.ts lines 101-145) -/

/-- The `set_access_token` operation: on non-200 status returns `false`
without mutating state; otherwise reads
`response.data['data']['xab_abra_accept_terms_of_service']['new_temp_user_auth']['access_token']`
(each step may throw `TypeError`), stores its string coercion and returns
`true`. -/
def set_access_token (st : Session) (resp : HttpResp JSON) : Session × Except JsErr Bool :=
  if resp.status ≠ 200 then (st, .ok false)
  else
    match getField (some resp.data) "data" with
    | .error e => (st, .error e)
    | .ok v1 =>
      match getField v1 "xab_abra_accept_terms_of_service" with
      | .error e => (st, .error e)
      | .ok v2 =>
        match getField v2 "new_temp_user_auth" with
        | .error e => (st, .error e)
        | .ok v3 =>
          match getField v3 "access_token" with
          | .error e => (st, .error e)
          | .ok v4 => ({ st with access_token := jsToString v4 }, .ok true)

/-! ### prompt (src/metaai/index.ts lines 159-226) -/

/-- The completion marker scanned for in each response fragment. -/
def doneMarker : String := "OVERALL_DONE"

/-- The fragment-selection loop of `prompt`: `llm_done` starts empty and is
overwritten by every fragment containing the completion marker, so it ends as
the last such fragment. -/
def selectDone (frags : List String) : String :=
  frags.foldl (fun acc f => if containsSub f.data doneMarker.data then f else acc) ""

/-- The `variables` JSON text built by `prompt` (src lines 191-193), by
direct template interpolation of the message, conversation id and threading
id. -/
def promptVariables (message conv tid : String) : String :=
  "\x7b\"message\":\x7b\"sensitive_string_value\":\"" ++ (message
    ++ ("\"\x7d,\"externalConversationId\":\"" ++ (conv
    ++ ("\",\"offlineThreadingId\":\"" ++ (tid
    ++ "\",\"suggestedPromptIndex\":null,\"flashVideoRecapInput\":\x7b\"images\":[]\x7d,\"flashPreviewInput\":null,\"promptPrefix\":null,\"entrypoint\":\"ABRA__CHAT__TEXT\",\"icebreaker_type\":\"TEXT\",\"__relay_internal__pv__AbraDebugDevOnlyrelayprovider\":false,\"__relay_internal__pv__WebPixelRatiorelayprovider\":1\x7d")))))

/-- Return value of `prompt`: the `false` sentinel or the returned JavaScript
value (`json_resp['data']['node']['bot_response_message']['snippet']`, which
is `undefined` when the field is absent). -/
inductive PromptRet where
  | fls
  | val (v : JsVal)

/-- The response-parsing tail of `prompt` (src lines 207-225): split the body
on newlines, select the last fragment holding the completion marker,
`JSON.parse` it (throwing `SyntaxError` on failure, e.g. when no fragment
held the marker and the selection is empty), extract the snippet, then store
the fetch id before returning the snippet. -/
def promptParse (st : Session) (body : String) : Session × Except JsErr PromptRet :=
  match jparse (selectDone ((splitNl body.data).map (fun l => (⟨l⟩ : String)))) with
  | none => (st, .error .syntaxError)
  | some json_resp =>
    match getField (some json_resp) "data" with
    | .error e => (st, .error e)
    | .ok v1 =>
      match getField v1 "node" with
      | .error e => (st, .error e)
      | .ok v2 =>
        match getField v2 "bot_response_message" with
        | .error e => (st, .error e)
        | .ok brm =>
          match getField brm "snippet" with
          | .error e => (st, .error e)
          | .ok snippet =>
            match getField brm "fetch_id" with
            | .error e => (st, .error e)
            | .ok fid =>
              ({ st with last_fetch_id := jsToString fid }, .ok (.val snippet))

/-- The chat exchange of `prompt` (src lines 197-226): non-200 status returns
the `false` sentinel with the state as accumulated by lazy initialization;
otherwise the body is parsed. -/
def promptChat (st : Session) (chatResp : HttpResp String) : Session × Except JsErr PromptRet :=
  if chatResp.status ≠ 200 then (st, .ok .fls)
  else promptParse st chatResp.data

/-- The access-token guard of `prompt` (src lines 165-169): a lazy
`set_access_token` when the token is empty, aborting with the `false`
sentinel when it reports failure. -/
def promptWithToken (st : Session) (tokResp : HttpResp JSON) (chatResp : HttpResp String) :
    Session × Except JsErr PromptRet :=
  if st.access_token = "" then
    match set_access_token st tokResp with
    | (s2, .error e) => (s2, .error e)
    | (s2, .ok false) => (s2, .ok .fls)
    | (s2, .ok true) => promptChat s2 chatResp
  else promptChat st chatResp

/-- The `prompt` operation.  `message` and `tid` (the fresh threading id)
feed the request body `promptVariables message st.conversation_id tid`; the
transport oracle supplies the responses of the lazy `init`, the lazy
`set_access_token` and the chat exchange. -/
def prompt (st : Session) (message tid : String) (initResp : HttpResp String)
    (tokResp : HttpResp JSON) (chatResp : HttpResp String) :
    Session × Except JsErr PromptRet :=
  if st.cookies = "" then
    match init st initResp with
    | (s1, .error e) => (s1, .error e)
    | (s1, .ok false) => (s1, .ok .fls)
    | (s1, .ok true) => promptWithToken s1 tokResp chatResp
  else promptWithToken st tokResp chatResp

/-! ### sources (src/metaai/index.ts lines 239-297) -/

/-- One citation, from src/metaai/interfaces/Reference.ts. -/
structure Reference where
  link : String
  title : String
deriving DecidableEq

/-- The sources result, from the `Sources` interface. -/
structure Sources where
  search_engine : String
  search_query : String
  references : List Reference
deriving DecidableEq

/-- The `variables` JSON text built by `sources` (src line 266). -/
def sourcesVariables (fetch_id : String) : String :=
  "\x7b\"abraMessageFetchID\":\"" ++ fetch_id ++ "\"\x7d"

/-- Everything observable about one `sources` call: the state on return (the
operation never mutates it), the `variables` string of the outgoing request,
and the outcome (`none` is the `false` sentinel). -/
structure SourcesRun where
  state : Session
  req_variables : String
  out : Except JsErr (Option Sources)

/-- One element of the reference loop body: `reference['link']` and
`reference['title']` with JavaScript property access, coerced to strings. -/
def refOfJson (x : JSON) : Except JsErr Reference :=
  match getField (some x) "link" with
  | .error e => .error e
  | .ok lv =>
    match getField (some x) "title" with
    | .error e => .error e
    | .ok tv => .ok { link := jsToString lv, title := jsToString tv }

/-- The reference loop over a list of elements, preserving order. -/
def refsOfList : List JSON → Except JsErr (List Reference)
  | [] => .ok []
  | x :: rest =>
    match refOfJson x with
    | .error e => .error e
    | .ok r =>
      match refsOfList rest with
      | .error e => .error e
      | .ok rs => .ok (r :: rs)

/-- Modelled from `for (const reference of searchResults['references'])`:
arrays iterate their elements, strings iterate their characters, anything
else is not iterable and throws `TypeError`. -/
def iterRefs : JsVal → Except JsErr (List Reference)
  | some (.arr xs) => refsOfList xs
  | some (.str s) => refsOfList (s.data.map (fun ch => JSON.str ⟨[ch]⟩))
  | _ => .error .typeError

/-- The `sources` operation: an absent argument defaults to
`last_fetch_id`; the request embeds the chosen id in `sourcesVariables`;
non-200 status returns the `false` sentinel; otherwise
`response.data['data']['message']['searchResults']` is unpacked into a
`Sources` value, each access possibly throwing. -/
def sources (st : Session) (fetch_id? : Option String) (resp : HttpResp JSON) : SourcesRun :=
  let fetch_id := match fetch_id? with | some f => f | none => st.last_fetch_id
  let reqv := sourcesVariables fetch_id
  if resp.status ≠ 200 then ⟨st, reqv, .ok none⟩
  else
    match getField (some resp.data) "data" with
    | .error e => ⟨st, reqv, .error e⟩
    | .ok v1 =>
      match getField v1 "message" with
      | .error e => ⟨st, reqv, .error e⟩
      | .ok v2 =>
        match getField v2 "searchResults" with
        | .error e => ⟨st, reqv, .error e⟩
        | .ok searchResults =>
          match getField searchResults "search_engine" with
          | .error e => ⟨st, reqv, .error e⟩
          | .ok se =>
            match getField searchResults "search_query" with
            | .error e => ⟨st, reqv, .error e⟩
            | .ok sq =>
              match getField searchResults "references" with
              | .error e => ⟨st, reqv, .error e⟩
              | .ok refs =>
                match iterRefs refs with
                | .error e => ⟨st, reqv, .error e⟩
                | .ok rs =>
                  ⟨st, reqv, .ok (some
                    { search_engine := jsToString se,
                      search_query := jsToString sq,
                      references := rs })⟩

/-! ### Call traces over the public operations (for the reachable-state
invariant) -/

/-- One public-operation call with its transport oracle data. -/
inductive Step where
  | ini (r : HttpResp String)
  | tok (r : HttpResp JSON)
  | prm (message tid : String) (iR : HttpResp String) (tR : HttpResp JSON) (cR : HttpResp String)
  | src (fetch_id? : Option String) (r : HttpResp JSON)

/-- The session state after one call (whether it returned or threw). -/
def runStep (st : Session) : Step → Session
  | .ini r => (init st r).1
  | .tok r => (set_access_token st r).1
  | .prm m t iR tR cR => (prompt st m t iR tR cR).1
  | .src f r => (sources st f r).state

/-- The session state after a sequence of calls. -/
def runTrace : Session → List Step → Session
  | st, [] => st
  | st, s :: rest => runTrace (runStep st s) rest

/-- Guard on one call: a direct `set_access_token` call must happen in a
state whose cookies are set (the documented precondition of the token
exchange); any other call is unrestricted. -/
def stepGuard (st : Session) : Step → Bool
  | .tok _ => decide (st.cookies ≠ "")
  | _ => true

/-- Guard on a trace: every direct `set_access_token` call happens in a state
whose cookies are set. -/
def tokGuard : Session → List Step → Bool
  | _, [] => true
  | st, s :: rest => stepGuard st s && tokGuard (runStep st s) rest

/-! ### Auxiliary definitions for stating the claims -/

/-- A character that a JSON string literal can hold verbatim: not the quote,
not the backslash, not a control character. -/
def goodJsonChar (c : Char) : Bool :=
  c ≠ '"' && c ≠ '\\' && 32 ≤ c.toNat

/-- A string every character of which can sit verbatim in a JSON string
literal. -/
def goodJsonStr (s : String) : Bool :=
  s.data.all goodJsonChar

/-- The JSON value that the `variables` template of `prompt` spells out. -/
def variablesJson (message conv tid : String) : JSON :=
  .obj [("message", .obj [("sensitive_string_value", .str message)]),
        ("externalConversationId", .str conv),
        ("offlineThreadingId", .str tid),
        ("suggestedPromptIndex", .null),
        ("flashVideoRecapInput", .obj [("images", .arr [])]),
        ("flashPreviewInput", .null),
        ("promptPrefix", .null),
        ("entrypoint", .str "ABRA__CHAT__TEXT"),
        ("icebreaker_type", .str "TEXT"),
        ("__relay_internal__pv__AbraDebugDevOnlyrelayprovider", .bool false),
        ("__relay_internal__pv__WebPixelRatiorelayprovider", .num "1")]

/-- The `message.sensitive_string_value` field of a parsed variables
document. -/
def messageField (j : JSON) : Option JSON :=
  match j with
  | .obj fs =>
    match lookupField fs "message" with
    | some (.obj ms) => lookupField ms "sensitive_string_value"
    | _ => none
  | _ => none

/-! ### Concrete transport data used by witnesses and counterexamples -/

/-- A landing-page body holding all four markers, with the LSD token a
parameter. -/
def landingWith (lsdTok : String) : String :=
  "abra_csrf\":\x7b\"value\":\"AA\" _js_datr\":\x7b\"value\":\"JJ\" datr\":\x7b\"value\":\"DD\" LSD token\":\""
    ++ lsdTok ++ "\""

/-- A landing-page body with LSD token "L1". -/
def landingA : String := landingWith "L1"

/-- A landing-page body identical to `landingA` except for the LSD token. -/
def landingB : String := landingWith "L2"

/-- A well-formed token-exchange response carrying access token "TOK". -/
def tokGood : HttpResp JSON :=
  ⟨200, .obj [("data", .obj [("xab_abra_accept_terms_of_service",
    .obj [("new_temp_user_auth", .obj [("access_token", .str "TOK")])])])]⟩

/-- A completion fragment: valid JSON, holds the completion marker, snippet
"hello", fetch id "F1". -/
def fragDone : String :=
  "\x7b\"data\":\x7b\"node\":\x7b\"bot_response_message\":\x7b\"snippet\":\"hello\",\"fetch_id\":\"F1\",\"state\":\"OVERALL_DONE\"\x7d\x7d\x7d\x7d"

/-- A five-fragment streamed chat body where only the third fragment holds
the completion marker. -/
def chatGoodBody : String := "a\nb\n" ++ fragDone ++ "\nd\ne"

/-- A well-formed sources response with two ordered references. -/
def srcGood : HttpResp JSON :=
  ⟨200, .obj [("data", .obj [("message", .obj [("searchResults",
    .obj [("search_engine", .str "G"), ("search_query", .str "q"),
      ("references", .arr [
        .obj [("link", .str "l1"), ("title", .str "t1")],
        .obj [("link", .str "l2"), ("title", .str "t2")]])])])])]⟩

/-! ### Preservation lemmas for the operations -/

theorem init_keeps (st : Session) (r : HttpResp String) :
    (init st r).1.access_token = st.access_token ∧
    (init st r).1.conversation_id = st.conversation_id ∧
    (init st r).1.last_fetch_id = st.last_fetch_id := by
  unfold init
  split
  · exact ⟨rfl, rfl, rfl⟩
  · split <;> exact ⟨rfl, rfl, rfl⟩

theorem init_cookies_cases (st : Session) (r : HttpResp String) :
    (init st r).1.cookies = st.cookies ∨ (init st r).1.cookies ≠ "" := by
  unfold init
  split
  · exact .inl rfl
  · split
    · refine .inr fun h => ?_
      exact List.cons_ne_nil _ _ (congrArg String.data h)
    · exact .inl rfl

theorem init_fail_state (st : Session) (r : HttpResp String) :
    (init st r).2 ≠ .ok true → (init st r).1 = st := by
  unfold init
  split
  · exact fun _ => rfl
  · split
    · exact fun h => absurd rfl h
    · exact fun _ => rfl

theorem tok_keeps (st : Session) (r : HttpResp JSON) :
    (set_access_token st r).1.cookies = st.cookies ∧
    (set_access_token st r).1.lsd = st.lsd ∧
    (set_access_token st r).1.conversation_id = st.conversation_id ∧
    (set_access_token st r).1.last_fetch_id = st.last_fetch_id := by
  unfold set_access_token
  repeat' split
  all_goals exact ⟨rfl, rfl, rfl, rfl⟩

theorem promptParse_keeps (st : Session) (b : String) :
    (promptParse st b).1.access_token = st.access_token ∧
    (promptParse st b).1.cookies = st.cookies ∧
    (promptParse st b).1.conversation_id = st.conversation_id := by
  unfold promptParse
  repeat' split
  all_goals exact ⟨rfl, rfl, rfl⟩

theorem promptParse_not_fls (st : Session) (b : String) :
    (promptParse st b).2 ≠ .ok .fls := by
  unfold promptParse
  repeat' split
  all_goals simp

theorem promptParse_fls_keeps (st : Session) (b : String)
    (h : (promptParse st b).2 = .ok .fls) : (promptParse st b).1 = st :=
  absurd h (promptParse_not_fls st b)

theorem promptChat_keeps (st : Session) (cR : HttpResp String) :
    (promptChat st cR).1.access_token = st.access_token ∧
    (promptChat st cR).1.cookies = st.cookies ∧
    (promptChat st cR).1.conversation_id = st.conversation_id := by
  unfold promptChat
  split
  · exact ⟨rfl, rfl, rfl⟩
  · exact promptParse_keeps st cR.data

theorem promptChat_fls_keeps (st : Session) (cR : HttpResp String) :
    (promptChat st cR).2 = .ok .fls → (promptChat st cR).1 = st := by
  unfold promptChat
  split
  · exact fun _ => rfl
  · exact promptParse_fls_keeps st cR.data

theorem tok_fail_state (st : Session) (r : HttpResp JSON) :
    (set_access_token st r).2 ≠ .ok true → (set_access_token st r).1 = st := by
  unfold set_access_token
  repeat' split
  all_goals first
  | exact fun _ => rfl
  | exact fun h => absurd rfl h

theorem sources_state (st : Session) (f? : Option String) (r : HttpResp JSON) :
    (sources st f? r).state = st := by
  unfold sources
  repeat' split
  all_goals rfl

theorem promptChat_non200 (st : Session) (cR : HttpResp String) (h : cR.status ≠ 200) :
    promptChat st cR = (st, .ok .fls) := by
  unfold promptChat
  rw [if_pos h]

theorem promptWithToken_keeps (st : Session) (tR : HttpResp JSON) (cR : HttpResp String) :
    (promptWithToken st tR cR).1.cookies = st.cookies ∧
    (promptWithToken st tR cR).1.conversation_id = st.conversation_id := by
  unfold promptWithToken
  split
  · split
    all_goals rename_i s2 heq
    · have hk := tok_keeps st tR
      rw [heq] at hk
      exact ⟨hk.1, hk.2.2.1⟩
    · have hk := tok_keeps st tR
      rw [heq] at hk
      exact ⟨hk.1, hk.2.2.1⟩
    · have hk := tok_keeps st tR
      rw [heq] at hk
      have hc := promptChat_keeps s2 cR
      exact ⟨hc.2.1.trans hk.1, hc.2.2.trans hk.2.2.1⟩
  · have hc := promptChat_keeps st cR
    exact ⟨hc.2.1, hc.2.2⟩

theorem promptWithToken_non200_keeps (st : Session) (tR : HttpResp JSON) (cR : HttpResp String)
    (h : cR.status ≠ 200) :
    (promptWithToken st tR cR).1.last_fetch_id = st.last_fetch_id ∧
    (promptWithToken st tR cR).1.conversation_id = st.conversation_id := by
  unfold promptWithToken
  split
  · split
    all_goals rename_i s2 heq
    · have hk := tok_keeps st tR
      rw [heq] at hk
      exact ⟨hk.2.2.2, hk.2.2.1⟩
    · have hk := tok_keeps st tR
      rw [heq] at hk
      exact ⟨hk.2.2.2, hk.2.2.1⟩
    · have hk := tok_keeps st tR
      rw [heq] at hk
      rw [promptChat_non200 s2 cR h]
      exact ⟨hk.2.2.2, hk.2.2.1⟩
  · rw [promptChat_non200 st cR h]
    exact ⟨rfl, rfl⟩

theorem init_non200 (st : Session) (r : HttpResp String) (h : r.status ≠ 200) :
    init st r = (st, .ok false) := by
  unfold init
  rw [if_pos h]

theorem tok_non200 (st : Session) (r : HttpResp JSON) (h : r.status ≠ 200) :
    set_access_token st r = (st, .ok false) := by
  unfold set_access_token
  rw [if_pos h]

theorem sources_non200 (st : Session) (f? : Option String) (r : HttpResp JSON) (h : r.status ≠ 200) :
    (sources st f? r).state = st ∧ (sources st f? r).out = .ok none := by
  unfold sources
  rw [if_pos h]
  exact ⟨rfl, rfl⟩

theorem prompt_ready_non200 (st : Session) (m t : String) (iR : HttpResp String)
    (tR : HttpResp JSON) (cR : HttpResp String)
    (hc : cR.status ≠ 200) (hck : st.cookies ≠ "") (hat : st.access_token ≠ "") :
    prompt st m t iR tR cR = (st, .ok .fls) := by
  unfold prompt promptWithToken
  rw [if_neg hck, if_neg hat]
  exact promptChat_non200 st cR hc

theorem prompt_non200_keeps (st : Session) (m t : String) (iR : HttpResp String)
    (tR : HttpResp JSON) (cR : HttpResp String) (hc : cR.status ≠ 200) :
    (prompt st m t iR tR cR).1.last_fetch_id = st.last_fetch_id ∧
    (prompt st m t iR tR cR).1.conversation_id = st.conversation_id := by
  unfold prompt
  split
  · split
    all_goals rename_i s1 heq
    · have hk := init_keeps st iR
      rw [heq] at hk
      exact ⟨hk.2.2, hk.2.1⟩
    · have hk := init_keeps st iR
      rw [heq] at hk
      exact ⟨hk.2.2, hk.2.1⟩
    · have hk := init_keeps st iR
      rw [heq] at hk
      have hp := promptWithToken_non200_keeps s1 tR cR hc
      exact ⟨hp.1.trans hk.2.2, hp.2.trans hk.2.1⟩
  · exact promptWithToken_non200_keeps st tR cR hc

theorem sources_req_none (st : Session) (r : HttpResp JSON) :
    (sources st none r).req_variables = sourcesVariables st.last_fetch_id := by
  simp only [sources]
  repeat' split
  all_goals rfl

theorem sources_req_some (st : Session) (fid : String) (r : HttpResp JSON) :
    (sources st (some fid) r).req_variables = sourcesVariables fid := by
  simp only [sources]
  repeat' split
  all_goals rfl

/-! ### Claim C1 -/

/-- C1 (amended): when the HTTP exchange of an operation returns a
non-success status the operation returns the `false` sentinel; `init`,
`set_access_token` and `sources` leave every Session field unchanged, and
`prompt` leaves every field unchanged provided `cookies` and `access_token`
were already non-empty at the call; a `prompt` whose chat exchange fails
still leaves `last_fetch_id` and `conversation_id` unchanged even when lazy
initialization already updated the credential fields. -/
theorem C1_transport_failure :
    (∀ (st : Session) (r : HttpResp String), r.status ≠ 200 → init st r = (st, .ok false)) ∧
    (∀ (st : Session) (r : HttpResp JSON), r.status ≠ 200 → set_access_token st r = (st, .ok false)) ∧
    (∀ (st : Session) (f? : Option String) (r : HttpResp JSON), r.status ≠ 200 →
      (sources st f? r).state = st ∧ (sources st f? r).out = .ok none) ∧
    (∀ (st : Session) (m t : String) (iR : HttpResp String) (tR : HttpResp JSON)
      (cR : HttpResp String), cR.status ≠ 200 → st.cookies ≠ "" → st.access_token ≠ "" →
      prompt st m t iR tR cR = (st, .ok .fls)) ∧
    (∀ (st : Session) (m t : String) (iR : HttpResp String) (tR : HttpResp JSON)
      (cR : HttpResp String), cR.status ≠ 200 →
      (prompt st m t iR tR cR).1.last_fetch_id = st.last_fetch_id ∧
      (prompt st m t iR tR cR).1.conversation_id = st.conversation_id) :=
  ⟨init_non200, tok_non200, sources_non200,
   fun st m t iR tR cR hc hck hat => prompt_ready_non200 st m t iR tR cR hc hck hat,
   fun st m t iR tR cR hc => prompt_non200_keeps st m t iR tR cR hc⟩

/-- C1 witness: a ready session with a failing chat exchange comes back
verbatim with the `false` sentinel. -/
theorem C1_transport_failure_witness :
    prompt { access_token := "at", cookies := "ck", lsd := "l", conversation_id := "c",
             last_fetch_id := "f" } "hi" "1" ⟨200, landingA⟩ tokGood ⟨500, "x"⟩ =
      ({ access_token := "at", cookies := "ck", lsd := "l", conversation_id := "c",
         last_fetch_id := "f" }, .ok .fls) :=
  C1_transport_failure.2.2.2.1 _ "hi" "1" ⟨200, landingA⟩ tokGood ⟨500, "x"⟩
    (by decide) (by decide) (by decide)

/-- C1 counterexample: the claim as stated is false for `prompt` — with a
fresh session, successful lazy initialization and a non-success chat
exchange, `prompt` returns the `false` sentinel but `cookies` differs from
its pre-call value. -/
theorem C1_counterexample :
    (prompt (newSession "c") "hi" "1" ⟨200, landingA⟩ tokGood ⟨500, "x"⟩).2 = .ok .fls ∧
    (prompt (newSession "c") "hi" "1" ⟨200, landingA⟩ tokGood ⟨500, "x"⟩).1.cookies ≠
      (newSession "c").cookies :=
  ⟨rfl, by decide⟩

/-! ### Claim C2 -/

/-- C2 (amended): when the HTTP exchange returns a non-success status every
operation terminates with the `false` sentinel and no exception; but on a
success-status response whose body lacks the expected markers the operation
raises instead of returning a sentinel — `init` on an empty 200 body throws
`TypeError`. -/
theorem C2_sentinel_or_raise :
    (∀ (st : Session) (r : HttpResp String), r.status ≠ 200 → (init st r).2 = .ok false) ∧
    (∀ (st : Session) (r : HttpResp JSON), r.status ≠ 200 → (set_access_token st r).2 = .ok false) ∧
    (∀ (st : Session) (f? : Option String) (r : HttpResp JSON), r.status ≠ 200 →
      (sources st f? r).out = .ok none) ∧
    (∀ (st : Session) (m t : String) (iR : HttpResp String) (tR : HttpResp JSON)
      (cR : HttpResp String), cR.status ≠ 200 → st.cookies ≠ "" → st.access_token ≠ "" →
      (prompt st m t iR tR cR).2 = .ok .fls) ∧
    (∀ st : Session, (init st ⟨200, ""⟩).2 = .error .typeError) :=
  ⟨fun st r h => by rw [init_non200 st r h],
   fun st r h => by rw [tok_non200 st r h],
   fun st f? r h => (sources_non200 st f? r h).2,
   fun st m t iR tR cR hc hck hat => by rw [prompt_ready_non200 st m t iR tR cR hc hck hat],
   fun st => rfl⟩

/-- C2 witness: the non-success branches at a concrete failing status. -/
theorem C2_sentinel_or_raise_witness :
    (init (newSession "c") ⟨500, "x"⟩).2 = .ok false ∧
    (set_access_token (newSession "c") ⟨500, .null⟩).2 = .ok false ∧
    (sources (newSession "c") none ⟨500, .null⟩).out = .ok none :=
  ⟨C2_sentinel_or_raise.1 _ _ (by decide),
   C2_sentinel_or_raise.2.1 _ _ (by decide),
   C2_sentinel_or_raise.2.2.1 _ none _ (by decide)⟩

/-- C2 counterexample: the claim as stated is false — `init` on a
success-status response with an empty body raises `TypeError` instead of
returning a sentinel. -/
theorem C2_counterexample :
    (init (newSession "c") ⟨200, ""⟩).2 = .error .typeError := rfl

/-! ### Claim C4 -/

/-- C4 (amended): a successful `init` sets `cookies` to the concatenation of
all four extracted values — the three cookie values and the LSD token — as
`_js_datr=<v>; abra_csrf=<v>; datr=<v>; lsd=<v>`, sets `lsd` to the fourth
token, and returns `true`. -/
theorem C4_init_success (st : Session) (r : HttpResp String) (a j d l : List Char)
    (h200 : r.status = 200)
    (ha : matchCapture r.data.data abraMark.data = some a)
    (hj : matchCapture r.data.data jsDatrMark.data = some j)
    (hd : matchCapture r.data.data datrMark.data = some d)
    (hl : matchLSD r.data.data = some l) :
    init st r =
      ({ st with
          cookies := "_js_datr=" ++ (⟨j⟩ : String) ++ "; abra_csrf=" ++ (⟨a⟩ : String)
            ++ "; datr=" ++ (⟨d⟩ : String) ++ "; lsd=" ++ (⟨l⟩ : String),
          lsd := (⟨l⟩ : String) }, .ok true) := by
  unfold init
  rw [if_neg (by simp [h200]), ha, hj, hd, hl]

/-- C4 witness: a concrete successful `init`. -/
theorem C4_init_success_witness :
    init (newSession "c") ⟨200, landingA⟩ =
      ({ access_token := "", cookies := "_js_datr=JJ; abra_csrf=AA; datr=JJ; lsd=L1",
         lsd := "L1", conversation_id := "c", last_fetch_id := "" }, .ok true) :=
  C4_init_success (newSession "c") ⟨200, landingA⟩
    "AA".data "JJ".data "JJ".data "L1".data rfl rfl rfl rfl rfl

/-- C4 counterexample: the claim as stated is false — `cookies` is not a
function of the three extracted cookie values alone: two landing bodies
agreeing on all three cookie extractions but differing in the LSD token
produce different `cookies` strings. -/
theorem C4_counterexample :
    matchCapture landingA.data abraMark.data = matchCapture landingB.data abraMark.data ∧
    matchCapture landingA.data jsDatrMark.data = matchCapture landingB.data jsDatrMark.data ∧
    matchCapture landingA.data datrMark.data = matchCapture landingB.data datrMark.data ∧
    (init (newSession "c") ⟨200, landingA⟩).1.cookies ≠
      (init (newSession "c") ⟨200, landingB⟩).1.cookies :=
  ⟨rfl, rfl, rfl, by decide⟩

/-! ### Claim C7 -/

/-- C7: `sources` with no argument embeds the current `last_fetch_id` in the
outgoing request's variables; with an explicit identifier it embeds exactly
that identifier, for every session state, so `last_fetch_id` plays no role. -/
theorem C7_sources_fetch_id (st : Session) (fid : String) (r r' : HttpResp JSON) :
    (sources st none r).req_variables = sourcesVariables st.last_fetch_id ∧
    (sources st (some fid) r').req_variables = sourcesVariables fid :=
  ⟨sources_req_none st r, sources_req_some st fid r'⟩

/-! ### Claim C8 -/

/-- C8 (amended): `sources()` with no argument before any successful prompt
does not surface a distinct failure — it silently issues the lookup with the
empty fetch identifier embedded in the request variables. -/
theorem C8_empty_fetch_id (st : Session) (r : HttpResp JSON) (h : st.last_fetch_id = "") :
    (sources st none r).req_variables = "\x7b\"abraMessageFetchID\":\"\"\x7d" := by
  rw [sources_req_none st r, h]
  rfl

/-- C8 witness: a fresh session issues the lookup with an empty identifier. -/
theorem C8_empty_fetch_id_witness :
    (sources (newSession "c") none srcGood).req_variables =
      "\x7b\"abraMessageFetchID\":\"\"\x7d" :=
  C8_empty_fetch_id (newSession "c") srcGood rfl

/-- C8 counterexample: the claim as stated is false — with `last_fetch_id`
still empty, the lookup is issued with an empty fetch identifier and, on a
well-formed response, succeeds instead of surfacing a failure. -/
theorem C8_counterexample :
    (sources (newSession "c") none srcGood).req_variables =
      "\x7b\"abraMessageFetchID\":\"\"\x7d" ∧
    (sources (newSession "c") none srcGood).out =
      .ok (some { search_engine := "G", search_query := "q",
                  references := [{ link := "l1", title := "t1" }, { link := "l2", title := "t2" }] }) :=
  ⟨rfl, rfl⟩

/-! ### Claim C9 -/

theorem tidSample_length (draws : Nat → Fin 10) (off : Nat) :
    (tidSample draws off).length = 19 := by
  simp [tidSample, String.length]

theorem tidDigit_isDigit : ∀ k : Fin 10, (tidDigit k).isDigit = true := by decide

theorem threadingIDAux_spec (draws : Nat → Fin 10) :
    ∀ fuel off s, threadingIDAux draws off fuel = some s →
      ∃ k, (∀ j, j < k → tidRejected (tidSample draws (off + 19 * j)) = true) ∧
        tidRejected (tidSample draws (off + 19 * k)) = false ∧
        s = tidSample draws (off + 19 * k) := by
  intro fuel
  induction fuel with
  | zero =>
    intro off s h
    exact absurd h (by simp [threadingIDAux])
  | succ n ih =>
    intro off s h
    unfold threadingIDAux at h
    by_cases hr : tidRejected (tidSample draws off) = true
    · rw [if_pos hr] at h
      obtain ⟨k, hrej, hacc, hs⟩ := ih (off + 19) s h
      refine ⟨k + 1, ?_, ?_, ?_⟩
      · intro j hj
        cases j with
        | zero => simpa using hr
        | succ j' =>
          have e : off + 19 * (j' + 1) = off + 19 + 19 * j' := by ring
          rw [e]
          exact hrej j' (by omega)
      · have e : off + 19 * (k + 1) = off + 19 + 19 * k := by ring
        rw [e]
        exact hacc
      · have e : off + 19 * (k + 1) = off + 19 + 19 * k := by ring
        rw [e]
        exact hs
    · rw [if_neg hr] at h
      refine ⟨0, by omega, ?_, ?_⟩
      · simpa using hr
      · cases h
        simp

/-- C9: every string returned by `threadingID` has length exactly 19,
consists only of decimal digits, and its first character is neither '0' nor
'9'; moreover the generator is the rejection-sampling loop: the result is the
sample of the first trial whose first digit is accepted, every earlier trial
(of 19 fresh digits) having been rejected. -/
theorem C9_threadingID_props (draws : Nat → Fin 10) (fuel : Nat) (s : String)
    (h : threadingID draws fuel = some s) :
    s.length = 19 ∧ (∀ c ∈ s.data, c.isDigit = true) ∧
    s.data.headD ' ' ≠ '0' ∧ s.data.headD ' ' ≠ '9' ∧
    ∃ k, (∀ j, j < k → tidRejected (tidSample draws (19 * j)) = true) ∧
      tidRejected (tidSample draws (19 * k)) = false ∧
      s = tidSample draws (19 * k) := by
  obtain ⟨k, hrej, hacc, hs⟩ := threadingIDAux_spec draws fuel 0 s h
  simp only [Nat.zero_add] at hrej hacc hs
  subst hs
  refine ⟨tidSample_length draws _, ?_, ?_, ?_, k, hrej, hacc, rfl⟩
  · intro c hc
    simp only [tidSample, List.mem_map] at hc
    obtain ⟨i, _, rfl⟩ := hc
    exact tidDigit_isDigit _
  · simp only [tidRejected, decide_eq_false_iff_not, not_or] at hacc
    exact hacc.2
  · simp only [tidRejected, decide_eq_false_iff_not, not_or] at hacc
    exact hacc.1

/-- C9 witness: a draw stream whose first digit is accepted at once. -/
theorem C9_threadingID_props_witness :
    ("1111111111111111111" : String).length = 19 ∧
    (∀ c ∈ ("1111111111111111111" : String).data, c.isDigit = true) ∧
    ("1111111111111111111" : String).data.headD ' ' ≠ '0' ∧
    ("1111111111111111111" : String).data.headD ' ' ≠ '9' ∧
    ∃ k, (∀ j, j < k → tidRejected (tidSample (fun _ => (0 : Fin 10)) (19 * j)) = true) ∧
      tidRejected (tidSample (fun _ => (0 : Fin 10)) (19 * k)) = false ∧
      "1111111111111111111" = tidSample (fun _ => (0 : Fin 10)) (19 * k) :=
  C9_threadingID_props (fun _ => 0) 1 "1111111111111111111" rfl

/-! ### Claim C6 -/

theorem init_ok_cookies (st : Session) (r : HttpResp String) :
    (init st r).2 = .ok true → (init st r).1.cookies ≠ "" := by
  unfold init
  split
  · intro h
    simp at h
  · split
    · intro _ hc
      exact List.cons_ne_nil _ _ (congrArg String.data hc)
    · intro h
      nomatch h

theorem prompt_keeps_conv (st : Session) (m t : String) (iR : HttpResp String)
    (tR : HttpResp JSON) (cR : HttpResp String) :
    (prompt st m t iR tR cR).1.conversation_id = st.conversation_id := by
  unfold prompt
  split
  · split
    all_goals rename_i s1 heq
    · have hk := init_keeps st iR
      rw [heq] at hk
      exact hk.2.1
    · have hk := init_keeps st iR
      rw [heq] at hk
      exact hk.2.1
    · have hk := init_keeps st iR
      rw [heq] at hk
      exact (promptWithToken_keeps s1 tR cR).2.trans hk.2.1
  · exact (promptWithToken_keeps st tR cR).2

theorem init_P (st : Session) (r : HttpResp String)
    (hP : st.access_token ≠ "" → st.cookies ≠ "") :
    (init st r).1.access_token ≠ "" → (init st r).1.cookies ≠ "" := by
  intro ha
  have hk := init_keeps st r
  rw [hk.1] at ha
  rcases init_cookies_cases st r with h | h
  · rw [h]
    exact hP ha
  · exact h

theorem tok_P (st : Session) (r : HttpResp JSON) (hck : st.cookies ≠ "") :
    (set_access_token st r).1.access_token ≠ "" → (set_access_token st r).1.cookies ≠ "" := by
  intro _
  rw [(tok_keeps st r).1]
  exact hck

theorem promptWithToken_P (st : Session) (tR : HttpResp JSON) (cR : HttpResp String)
    (hck : st.cookies ≠ "") :
    (promptWithToken st tR cR).1.access_token ≠ "" →
    (promptWithToken st tR cR).1.cookies ≠ "" := by
  intro _
  rw [(promptWithToken_keeps st tR cR).1]
  exact hck

theorem prompt_P (st : Session) (m t : String) (iR : HttpResp String)
    (tR : HttpResp JSON) (cR : HttpResp String)
    (hP : st.access_token ≠ "" → st.cookies ≠ "") :
    (prompt st m t iR tR cR).1.access_token ≠ "" →
    (prompt st m t iR tR cR).1.cookies ≠ "" := by
  unfold prompt
  split
  · split
    all_goals rename_i s1 heq
    · have hs := init_fail_state st iR (by rw [heq]; simp)
      rw [heq] at hs
      rw [hs]
      exact hP
    · have hs := init_fail_state st iR (by rw [heq]; simp)
      rw [heq] at hs
      rw [hs]
      exact hP
    · have hc := init_ok_cookies st iR (by rw [heq])
      rw [heq] at hc
      exact promptWithToken_P s1 tR cR hc
  · rename_i hck
    exact promptWithToken_P st tR cR hck

theorem runStep_conv (st : Session) (s : Step) :
    (runStep st s).conversation_id = st.conversation_id := by
  cases s with
  | ini r => exact (init_keeps st r).2.1
  | tok r => exact (tok_keeps st r).2.2.1
  | prm m t iR tR cR => exact prompt_keeps_conv st m t iR tR cR
  | src f r =>
    show (sources st f r).state.conversation_id = st.conversation_id
    rw [sources_state]

theorem runStep_P (st : Session) (s : Step)
    (hP : st.access_token ≠ "" → st.cookies ≠ "")
    (hg : ∀ r, s = .tok r → st.cookies ≠ "") :
    (runStep st s).access_token ≠ "" → (runStep st s).cookies ≠ "" := by
  cases s with
  | ini r => exact init_P st r hP
  | tok r => exact tok_P st r (hg r rfl)
  | prm m t iR tR cR => exact prompt_P st m t iR tR cR hP
  | src f r =>
    show (sources st f r).state.access_token ≠ "" → (sources st f r).state.cookies ≠ ""
    rw [sources_state]
    exact hP

theorem runTrace_conv : ∀ (steps : List Step) (st : Session),
    (runTrace st steps).conversation_id = st.conversation_id := by
  intro steps
  induction steps with
  | nil => intro st; rfl
  | cons s rest ih =>
    intro st
    exact (ih (runStep st s)).trans (runStep_conv st s)

theorem runTrace_P : ∀ (steps : List Step) (st : Session),
    (st.access_token ≠ "" → st.cookies ≠ "") → tokGuard st steps = true →
    ((runTrace st steps).access_token ≠ "" → (runTrace st steps).cookies ≠ "") := by
  intro steps
  induction steps with
  | nil => intro st hP _; exact hP
  | cons s rest ih =>
    intro st hP hg
    rw [tokGuard] at hg
    rw [Bool.and_eq_true] at hg
    refine ih (runStep st s) (runStep_P st s hP ?_) hg.2
    intro r hs
    subst hs
    have h1 := hg.1
    simp only [stepGuard] at h1
    exact of_decide_eq_true h1

/-- C6 (amended): in every state reachable by any sequence of calls to the
four public operations with arbitrary transport responses, `conversation_id`
is identical to the value held at the start (no operation ever changes it);
and provided every direct `set_access_token` call in the sequence happens in
a state with non-empty cookies (the documented precondition of the token
exchange), a non-empty `access_token` implies non-empty `cookies` in every
reachable state. -/
theorem C6_reachable_invariant :
    (∀ (st : Session) (steps : List Step),
      (runTrace st steps).conversation_id = st.conversation_id) ∧
    (∀ (st : Session) (steps : List Step),
      (st.access_token ≠ "" → st.cookies ≠ "") → tokGuard st steps = true →
      ((runTrace st steps).access_token ≠ "" → (runTrace st steps).cookies ≠ "")) :=
  ⟨fun st steps => runTrace_conv steps st,
   fun st steps hP hg => runTrace_P steps st hP hg⟩

/-- C6 witness: a fresh client running a successful `init` then a guarded
`set_access_token` keeps its conversation id and satisfies the invariant. -/
theorem C6_reachable_invariant_witness :
    (runTrace (newSession "c") [.ini ⟨200, landingA⟩, .tok tokGood]).conversation_id = "c" ∧
    ((runTrace (newSession "c") [.ini ⟨200, landingA⟩, .tok tokGood]).access_token ≠ "" →
      (runTrace (newSession "c") [.ini ⟨200, landingA⟩, .tok tokGood]).cookies ≠ "") :=
  ⟨C6_reachable_invariant.1 (newSession "c") [.ini ⟨200, landingA⟩, .tok tokGood],
   C6_reachable_invariant.2 (newSession "c") [.ini ⟨200, landingA⟩, .tok tokGood]
     (by intro h; exact absurd rfl h) (by decide)⟩

/-- C6 counterexample: the claim as stated is false — calling
`set_access_token` directly on a fresh client with a well-formed 200
response yields a reachable state whose `access_token` is non-empty while
`cookies` is still empty. -/
theorem C6_counterexample :
    (runTrace (newSession "c") [.tok tokGood]).access_token = "TOK" ∧
    (runTrace (newSession "c") [.tok tokGood]).cookies = "" :=
  ⟨rfl, rfl⟩

/-! ### Claims C5 and C3 -/

theorem promptParse_success (st : Session) (b : String) (j : JSON) (d1 d2 brm : JsVal)
    (snip fid : String)
    (hp : jparse (selectDone ((splitNl b.data).map (fun l => (⟨l⟩ : String)))) = some j)
    (h1 : getField (some j) "data" = .ok d1)
    (h2 : getField d1 "node" = .ok d2)
    (h3 : getField d2 "bot_response_message" = .ok brm)
    (h4 : getField brm "snippet" = .ok (some (.str snip)))
    (h5 : getField brm "fetch_id" = .ok (some (.str fid))) :
    promptParse st b = ({ st with last_fetch_id := fid }, .ok (.val (some (.str snip)))) := by
  unfold promptParse
  rw [hp]
  simp only [h1, h2, h3, h4, h5]
  rfl

theorem prompt_success (st : Session) (m t : String) (iR : HttpResp String)
    (tR : HttpResp JSON) (cR : HttpResp String) (j : JSON) (d1 d2 brm : JsVal)
    (snip fid : String)
    (hck : st.cookies ≠ "") (hat : st.access_token ≠ "") (h200 : cR.status = 200)
    (hp : jparse (selectDone ((splitNl cR.data.data).map (fun l => (⟨l⟩ : String)))) = some j)
    (h1 : getField (some j) "data" = .ok d1)
    (h2 : getField d1 "node" = .ok d2)
    (h3 : getField d2 "bot_response_message" = .ok brm)
    (h4 : getField brm "snippet" = .ok (some (.str snip)))
    (h5 : getField brm "fetch_id" = .ok (some (.str fid))) :
    prompt st m t iR tR cR = ({ st with last_fetch_id := fid }, .ok (.val (some (.str snip)))) := by
  unfold prompt promptWithToken promptChat
  rw [if_neg hck, if_neg hat, if_neg (by simp [h200])]
  exact promptParse_success st cR.data j d1 d2 brm snip fid hp h1 h2 h3 h4 h5

theorem promptWithToken_fls_fetch (st : Session) (tR : HttpResp JSON) (cR : HttpResp String) :
    (promptWithToken st tR cR).2 = .ok .fls →
    (promptWithToken st tR cR).1.last_fetch_id = st.last_fetch_id := by
  unfold promptWithToken
  split
  · split
    all_goals rename_i s2 heq
    · intro h
      nomatch h
    · intro _
      have hk := tok_keeps st tR
      rw [heq] at hk
      exact hk.2.2.2
    · intro h
      have hk := tok_keeps st tR
      rw [heq] at hk
      rw [promptChat_fls_keeps s2 cR h]
      exact hk.2.2.2
  · intro h
    rw [promptChat_fls_keeps st cR h]

theorem prompt_fls_fetch (st : Session) (m t : String) (iR : HttpResp String)
    (tR : HttpResp JSON) (cR : HttpResp String) :
    (prompt st m t iR tR cR).2 = .ok .fls →
    (prompt st m t iR tR cR).1.last_fetch_id = st.last_fetch_id := by
  unfold prompt
  split
  · split
    all_goals rename_i s1 heq
    · intro h
      nomatch h
    · intro _
      have hk := init_keeps st iR
      rw [heq] at hk
      exact hk.2.2
    · intro h
      have hk := init_keeps st iR
      rw [heq] at hk
      exact (promptWithToken_fls_fetch s1 tR cR h).trans hk.2.2
  · exact promptWithToken_fls_fetch st tR cR

/-- C5: after a successful `prompt` (all parsing hypotheses met),
`last_fetch_id` equals exactly the fetch identifier carried in the selected
completion fragment; after any `prompt` that returns the `false` sentinel,
`last_fetch_id` is unchanged. -/
theorem C5_last_fetch_id :
    (∀ (st : Session) (m t : String) (iR : HttpResp String) (tR : HttpResp JSON)
      (cR : HttpResp String) (j : JSON) (d1 d2 brm : JsVal) (snip fid : String),
      st.cookies ≠ "" → st.access_token ≠ "" → cR.status = 200 →
      jparse (selectDone ((splitNl cR.data.data).map (fun l => (⟨l⟩ : String)))) = some j →
      getField (some j) "data" = .ok d1 →
      getField d1 "node" = .ok d2 →
      getField d2 "bot_response_message" = .ok brm →
      getField brm "snippet" = .ok (some (.str snip)) →
      getField brm "fetch_id" = .ok (some (.str fid)) →
      (prompt st m t iR tR cR).1.last_fetch_id = fid) ∧
    (∀ (st : Session) (m t : String) (iR : HttpResp String) (tR : HttpResp JSON)
      (cR : HttpResp String), (prompt st m t iR tR cR).2 = .ok .fls →
      (prompt st m t iR tR cR).1.last_fetch_id = st.last_fetch_id) :=
  ⟨fun st m t iR tR cR j d1 d2 brm snip fid hck hat h200 hp h1 h2 h3 h4 h5 => by
      rw [prompt_success st m t iR tR cR j d1 d2 brm snip fid hck hat h200 hp h1 h2 h3 h4 h5],
   prompt_fls_fetch⟩

/-- C5 witness: the success half at a concrete streamed body (fetch id
"F1"), and the failure half at a concrete failing chat exchange. -/
theorem C5_last_fetch_id_witness :
    (prompt { access_token := "at", cookies := "ck", lsd := "l", conversation_id := "c",
              last_fetch_id := "old" } "hi" "1" ⟨200, landingA⟩ tokGood
      ⟨200, chatGoodBody⟩).1.last_fetch_id = "F1" ∧
    (prompt { access_token := "at", cookies := "ck", lsd := "l", conversation_id := "c",
              last_fetch_id := "old" } "hi" "1" ⟨200, landingA⟩ tokGood
      ⟨500, "x"⟩).1.last_fetch_id = "old" :=
  ⟨C5_last_fetch_id.1 _ "hi" "1" ⟨200, landingA⟩ tokGood ⟨200, chatGoodBody⟩
      (.obj [("data", .obj [("node", .obj [("bot_response_message",
        .obj [("snippet", .str "hello"), ("fetch_id", .str "F1"),
          ("state", .str "OVERALL_DONE")])])])])
      (some (.obj [("node", .obj [("bot_response_message",
        .obj [("snippet", .str "hello"), ("fetch_id", .str "F1"),
          ("state", .str "OVERALL_DONE")])])]))
      (some (.obj [("bot_response_message",
        .obj [("snippet", .str "hello"), ("fetch_id", .str "F1"),
          ("state", .str "OVERALL_DONE")])]))
      (some (.obj [("snippet", .str "hello"), ("fetch_id", .str "F1"),
        ("state", .str "OVERALL_DONE")]))
      "hello" "F1" (by decide) (by decide) rfl rfl rfl rfl rfl rfl rfl,
   C5_last_fetch_id.2 _ "hi" "1" ⟨200, landingA⟩ tokGood ⟨500, "x"⟩ rfl⟩

theorem selectDone_foldl : ∀ (frags : List String) (acc : String),
    frags.foldl (fun a f => if containsSub f.data doneMarker.data then f else a) acc =
      (frags.filter (fun f => containsSub f.data doneMarker.data)).getLastD acc := by
  intro frags
  induction frags with
  | nil => intro acc; rfl
  | cons f fs ih =>
    intro acc
    by_cases hf : containsSub f.data doneMarker.data = true
    · rw [List.foldl_cons, if_pos hf,
        @List.filter_cons_of_pos _ (fun g => containsSub g.data doneMarker.data) f fs hf,
        List.getLastD_cons]
      exact ih f
    · rw [List.foldl_cons, if_neg hf,
        @List.filter_cons_of_neg _ (fun g => containsSub g.data doneMarker.data) f fs hf]
      exact ih acc

/-- C3: on a success-status chat response, `prompt` selects exactly the last
newline-separated fragment containing the completion marker (`selectDone`
equals the last marker-holding fragment, earlier fragments are ignored) and,
when that fragment parses with the expected fields, returns the reply text
extracted from it. -/
theorem C3_selects_last_done_fragment (st : Session) (m t : String) (iR : HttpResp String)
    (tR : HttpResp JSON) (cR : HttpResp String) (j : JSON) (d1 d2 brm : JsVal)
    (snip fid : String)
    (hck : st.cookies ≠ "") (hat : st.access_token ≠ "") (h200 : cR.status = 200)
    (hp : jparse (selectDone ((splitNl cR.data.data).map (fun l => (⟨l⟩ : String)))) = some j)
    (h1 : getField (some j) "data" = .ok d1)
    (h2 : getField d1 "node" = .ok d2)
    (h3 : getField d2 "bot_response_message" = .ok brm)
    (h4 : getField brm "snippet" = .ok (some (.str snip)))
    (h5 : getField brm "fetch_id" = .ok (some (.str fid))) :
    selectDone ((splitNl cR.data.data).map (fun l => (⟨l⟩ : String))) =
      (((splitNl cR.data.data).map (fun l => (⟨l⟩ : String))).filter
        (fun f => containsSub f.data doneMarker.data)).getLastD "" ∧
    prompt st m t iR tR cR = ({ st with last_fetch_id := fid }, .ok (.val (some (.str snip)))) :=
  ⟨selectDone_foldl _ "",
   prompt_success st m t iR tR cR j d1 d2 brm snip fid hck hat h200 hp h1 h2 h3 h4 h5⟩

/-- C3 witness: a five-fragment streamed body whose third fragment alone
holds the completion marker; the reply is extracted from that fragment. -/
theorem C3_selects_last_done_fragment_witness :
    (splitNl chatGoodBody.data).map (fun l => (⟨l⟩ : String)) =
      ["a", "b", fragDone, "d", "e"] ∧
    ((((splitNl chatGoodBody.data).map (fun l => (⟨l⟩ : String))).filter
      (fun f => containsSub f.data doneMarker.data)) = [fragDone]) ∧
    selectDone ((splitNl chatGoodBody.data).map (fun l => (⟨l⟩ : String))) =
      (((splitNl chatGoodBody.data).map (fun l => (⟨l⟩ : String))).filter
        (fun f => containsSub f.data doneMarker.data)).getLastD "" ∧
    prompt { access_token := "at", cookies := "ck", lsd := "l", conversation_id := "c",
             last_fetch_id := "old" } "hi" "1" ⟨200, landingA⟩ tokGood ⟨200, chatGoodBody⟩ =
      ({ access_token := "at", cookies := "ck", lsd := "l", conversation_id := "c",
         last_fetch_id := "F1" }, .ok (.val (some (.str "hello")))) :=
  ⟨rfl, rfl,
   C3_selects_last_done_fragment
      { access_token := "at", cookies := "ck", lsd := "l", conversation_id := "c",
        last_fetch_id := "old" } "hi" "1" ⟨200, landingA⟩ tokGood ⟨200, chatGoodBody⟩
      (.obj [("data", .obj [("node", .obj [("bot_response_message",
        .obj [("snippet", .str "hello"), ("fetch_id", .str "F1"),
          ("state", .str "OVERALL_DONE")])])])])
      (some (.obj [("node", .obj [("bot_response_message",
        .obj [("snippet", .str "hello"), ("fetch_id", .str "F1"),
          ("state", .str "OVERALL_DONE")])])]))
      (some (.obj [("bot_response_message",
        .obj [("snippet", .str "hello"), ("fetch_id", .str "F1"),
          ("state", .str "OVERALL_DONE")])]))
      (some (.obj [("snippet", .str "hello"), ("fetch_id", .str "F1"),
        ("state", .str "OVERALL_DONE")]))
      "hello" "F1" (by decide) (by decide) rfl rfl rfl rfl rfl rfl rfl |>.1,
   C3_selects_last_done_fragment
      { access_token := "at", cookies := "ck", lsd := "l", conversation_id := "c",
        last_fetch_id := "old" } "hi" "1" ⟨200, landingA⟩ tokGood ⟨200, chatGoodBody⟩
      (.obj [("data", .obj [("node", .obj [("bot_response_message",
        .obj [("snippet", .str "hello"), ("fetch_id", .str "F1"),
          ("state", .str "OVERALL_DONE")])])])])
      (some (.obj [("node", .obj [("bot_response_message",
        .obj [("snippet", .str "hello"), ("fetch_id", .str "F1"),
          ("state", .str "OVERALL_DONE")])])]))
      (some (.obj [("bot_response_message",
        .obj [("snippet", .str "hello"), ("fetch_id", .str "F1"),
          ("state", .str "OVERALL_DONE")])]))
      (some (.obj [("snippet", .str "hello"), ("fetch_id", .str "F1"),
        ("state", .str "OVERALL_DONE")]))
      "hello" "F1" (by decide) (by decide) rfl rfl rfl rfl rfl rfl rfl |>.2⟩

/-! ### Claim C10 -/

set_option maxRecDepth 100000

theorem parseStrBody_append (cs : List Char) (rest : List Char)
    (h : ∀ c ∈ cs, goodJsonChar c = true) :
    parseStrBody (cs ++ '"' :: rest) = some (cs, rest) := by
  unfold parseStrBody
  induction cs with
  | nil => simp [strScan]
  | cons c cs ih =>
    have hc := h c (List.mem_cons_self c cs)
    simp only [goodJsonChar, Bool.and_eq_true, decide_eq_true_eq] at hc
    rw [List.cons_append]
    rw [strScan]
    rw [if_neg hc.1.1, if_neg hc.1.2, if_neg (show ¬ c.toNat < 32 by omega)]
    rw [ih (fun x hx => h x (List.mem_cons_of_mem c hx))]
    rfl

theorem goodJsonStr_chars (s : String) (h : goodJsonStr s = true) :
    ∀ c ∈ s.data, goodJsonChar c = true := by
  simpa [goodJsonStr, List.all_eq_true] using h

theorem jparse_promptVariables (m c t : String)
    (hm : goodJsonStr m = true) (hc : goodJsonStr c = true) (ht : goodJsonStr t = true) :
    jparse (promptVariables m c t) = some (variablesJson m c t) := by
  unfold jparse
  show (match (match (match Option.map (fun p => (JSON.str ⟨p.1⟩, p.2))
            (parseStrBody (m.data ++ ('"' :: (("\x7d,\"externalConversationId\":\"" : String).data
              ++ ((c ++ ("\",\"offlineThreadingId\":\"" ++ (t
              ++ "\",\"suggestedPromptIndex\":null,\"flashVideoRecapInput\":\x7b\"images\":[]\x7d,\"flashPreviewInput\":null,\"promptPrefix\":null,\"entrypoint\":\"ABRA__CHAT__TEXT\",\"icebreaker_type\":\"TEXT\",\"__relay_internal__pv__AbraDebugDevOnlyrelayprovider\":false,\"__relay_internal__pv__WebPixelRatiorelayprovider\":1\x7d"))) : String).data)))) with
          | some (v2, r3) => pVal 999994 (.memSep [("sensitive_string_value", v2)]) r3
          | none => none) with
        | some (v1, r3) => pVal 999997 (.memSep [("message", v1)]) r3
        | none => none) with
      | some (v, rest) => if skipWs rest = [] then some v else none
      | none => none) = some (variablesJson m c t)
  rw [parseStrBody_append m.data _ (goodJsonStr_chars m hm)]
  show (match (match Option.map (fun p => (JSON.str ⟨p.1⟩, p.2))
            (parseStrBody (c.data ++ ('"' :: ((",\"offlineThreadingId\":\"" : String).data
              ++ ((t ++ "\",\"suggestedPromptIndex\":null,\"flashVideoRecapInput\":\x7b\"images\":[]\x7d,\"flashPreviewInput\":null,\"promptPrefix\":null,\"entrypoint\":\"ABRA__CHAT__TEXT\",\"icebreaker_type\":\"TEXT\",\"__relay_internal__pv__AbraDebugDevOnlyrelayprovider\":false,\"__relay_internal__pv__WebPixelRatiorelayprovider\":1\x7d") : String).data)))) with
          | some (v, r3) => pVal 999995 (.memSep [("message", .obj [("sensitive_string_value", .str m)]),
              ("externalConversationId", v)]) r3
          | none => none) with
      | some (v, rest) => if skipWs rest = [] then some v else none
      | none => none) = some (variablesJson m c t)
  rw [parseStrBody_append c.data _ (goodJsonStr_chars c hc)]
  show (match (match Option.map (fun p => (JSON.str ⟨p.1⟩, p.2))
            (parseStrBody (t.data ++ ('"' :: ((",\"suggestedPromptIndex\":null,\"flashVideoRecapInput\":\x7b\"images\":[]\x7d,\"flashPreviewInput\":null,\"promptPrefix\":null,\"entrypoint\":\"ABRA__CHAT__TEXT\",\"icebreaker_type\":\"TEXT\",\"__relay_internal__pv__AbraDebugDevOnlyrelayprovider\":false,\"__relay_internal__pv__WebPixelRatiorelayprovider\":1\x7d" : String).data)))) with
          | some (v, r3) => pVal 999993 (.memSep [("message", .obj [("sensitive_string_value", .str m)]),
              ("externalConversationId", .str c), ("offlineThreadingId", v)]) r3
          | none => none) with
      | some (v, rest) => if skipWs rest = [] then some v else none
      | none => none) = some (variablesJson m c t)
  rw [parseStrBody_append t.data _ (goodJsonStr_chars t ht)]
  rfl

/-- C10 (amended): `prompt` interpolates the message into the `variables`
JSON text without escaping; for every message, conversation id and threading
id free of double quotes, backslashes AND control characters, the
constructed string is a valid JSON document whose
`message.sensitive_string_value` field equals the message verbatim; and for
the message `a"b`, which contains a double quote, the constructed string is
not a JSON document at all. -/
theorem C10_variables_interpolation :
    (∀ m c t : String, goodJsonStr m = true → goodJsonStr c = true → goodJsonStr t = true →
      jparse (promptVariables m c t) = some (variablesJson m c t) ∧
      messageField (variablesJson m c t) = some (.str m)) ∧
    jparse (promptVariables "a\"b" "cv" "123") = none :=
  ⟨fun m c t hm hc ht => ⟨jparse_promptVariables m c t hm hc ht, rfl⟩, rfl⟩

/-- C10 witness: a concrete benign message round-trips through the template
as valid JSON. -/
theorem C10_variables_interpolation_witness :
    jparse (promptVariables "hello world" "cv" "123") =
      some (variablesJson "hello world" "cv" "123") ∧
    messageField (variablesJson "hello world" "cv" "123") = some (.str "hello world") :=
  C10_variables_interpolation.1 "hello world" "cv" "123" (by decide) (by decide) (by decide)

/-- C10 counterexample: the claim as stated is false — the newline message
contains neither a double quote nor a backslash, yet the constructed
variables string is not a valid JSON document (the raw control character is
illegal inside a JSON string literal). -/
theorem C10_counterexample :
    (∀ ch ∈ ("\n" : String).data, ch ≠ '"' ∧ ch ≠ '\\') ∧
    jparse (promptVariables "\n" "cv" "123") = none :=
  ⟨by decide, rfl⟩
